import Mathlib

/-!
Shallow embedding of the krunkit device-specification compiler and
application engine (src/cmdline.rs, src/virtio.rs, src/context.rs,
src/status.rs).

Strings are modelled as lists of characters.  Rust HashMaps are modelled
as association lists kept in insertion order, which is adequate because
the parser rejects duplicate keys; iteration-order-dependent text in the
unknown-argument error message therefore uses insertion order.  Fallible
Rust functions returning anyhow::Result are modelled with Except String,
where the String is the (ASCII) error message.
-/

namespace Krunkit

/-- Rust str::split on a separator predicate over characters: splitting
always returns at least one (possibly empty) piece; the empty string
splits to one empty piece, mirroring Rust. -/
def splitBy (p : Char → Bool) : List Char → List (List Char)
  | [] => [[]]
  | c :: cs =>
    match splitBy p cs with
    | [] => [[]]
    | h :: t => if p c then [] :: h :: t else (c :: h) :: t

/-- Rust str::split on a single separator character. -/
def splitChar (c : Char) (l : List Char) : List (List Char) :=
  splitBy (fun x => x == c) l

/-- Rust slice join with a comma separator, as in args[1..].join(","). -/
def joinComma : List (List Char) → List Char
  | [] => []
  | [x] => x
  | x :: y :: t => x ++ ',' :: joinComma (y :: t)

/-- The parsed key-value argument map of cmdline.rs (a Rust HashMap,
modelled as an association list in insertion order). -/
abbrev ParsedArgs := List (List Char × List Char)

/-- HashMap lookup: the value stored under a key, if present. -/
def argsGet (m : ParsedArgs) (k : List Char) : Option (List Char) :=
  match m with
  | [] => none
  | p :: rest => if p.1 == k then some p.2 else argsGet rest k

/-- HashMap remove (the map never holds duplicate keys). -/
def argsRemove (m : ParsedArgs) (k : List Char) : ParsedArgs :=
  match m with
  | [] => []
  | p :: rest => if p.1 == k then argsRemove rest k else p :: argsRemove rest k

/-- HashMap contains_key. -/
def hasKeyB (m : ParsedArgs) (k : List Char) : Bool :=
  (argsGet m k).isSome

/-- The key a token contributes: everything before the first equals sign
(parts[0] in cmdline.rs). -/
def keyOf (arg : List Char) : List Char :=
  (splitChar '=' arg).headD []

/-- One token of parse_args (cmdline.rs lines 74-80): split on the equals
character; one part means a flag with empty value, two parts mean a
key-value pair, three or more parts are a format error. -/
def parseToken (arg : List Char) : Except String (List Char × List Char) :=
  match splitChar '=' arg with
  | [k] => .ok (k, [])
  | [k, v] => .ok (k, v)
  | _ => .error ("invalid argument format: " ++ String.mk arg)

/-- The token loop of parse_args (cmdline.rs lines 73-85): inserting a key
that is already present is a duplicate-key error. -/
def parseArgsGo : List (List Char) → ParsedArgs → Except String ParsedArgs
  | [], m => .ok m
  | arg :: rest, m =>
    match parseToken arg with
    | .error e => .error e
    | .ok (k, v) =>
      if hasKeyB m k then .error ("argument " ++ String.mk arg ++ " is only expected once")
      else parseArgsGo rest (m ++ [(k, v)])

/-- cmdline.rs parse_args: split the spec on commas and build the map. -/
def parse_args (s : List Char) : Except String ParsedArgs :=
  parseArgsGo (splitChar ',' s) []

/-- cmdline.rs check_required_args: first missing required key, in the
order of the required list, is an error. -/
def check_required_args (args : ParsedArgs) (label : String)
    (required : List (List Char)) : Except String Unit :=
  match required.find? (fun r => ! hasKeyB args r) with
  | some r => .error (label ++ " is missing argument: " ++ String.mk r)
  | none => .ok ()

/-- cmdline.rs check_unknown_args: any remaining keys are an error listing
every leftover key=value pair. -/
def check_unknown_args (args : ParsedArgs) (label : String) : Except String Unit :=
  if args.isEmpty then .ok ()
  else .error ("unknown " ++ label ++ " arguments: "
      ++ String.mk (joinComma (args.map (fun p => p.1 ++ '=' :: p.2))))

/-- cmdline.rs parse_boolean: true/on and false/off are the only valid
boolean spellings. -/
def parse_boolean (v : List Char) : Except String Bool :=
  if v = "true".data ∨ v = "on".data then .ok true
  else if v = "false".data ∨ v = "off".data then .ok false
  else .error ("invalid boolean value " ++ String.mk v)

/-- Whether a Result is an error. -/
def isErr {α : Type} (e : Except String α) : Bool :=
  match e with
  | .error _ => true
  | .ok _ => false

theorem splitBy_ne_nil (p : Char → Bool) : ∀ l : List Char, splitBy p l ≠ []
  | [] => by simp [splitBy]
  | c :: cs => by
    simp only [splitBy]
    cases h : splitBy p cs with
    | nil => exact absurd h (splitBy_ne_nil p cs)
    | cons a t => cases hp : p c <;> simp

theorem splitChar_ne_nil (c : Char) (l : List Char) : splitChar c l ≠ [] :=
  splitBy_ne_nil _ l

theorem splitBy_single (p : Char → Bool) :
    ∀ l : List Char, (∀ x ∈ l, p x = false) → splitBy p l = [l]
  | [], _ => rfl
  | c :: cs, h => by
    have hc : p c = false := h c (by simp)
    have ih := splitBy_single p cs (fun x hx => h x (by simp [hx]))
    simp only [splitBy, ih, hc]
    simp

theorem splitChar_single (c : Char) (l : List Char) (h : ∀ x ∈ l, (x == c) = false) :
    splitChar c l = [l] :=
  splitBy_single _ l h

theorem splitBy_append_sep (p : Char → Bool) (c : Char) (hc : p c = true) :
    ∀ (a l : List Char), (∀ x ∈ a, p x = false) →
      splitBy p (a ++ c :: l) = a :: splitBy p l
  | [], l, _ => by
    simp only [List.nil_append, splitBy]
    cases h : splitBy p l with
    | nil => exact absurd h (splitBy_ne_nil p l)
    | cons u t => simp [hc]
  | x :: a, l, h => by
    have hx : p x = false := h x (by simp)
    have ih := splitBy_append_sep p c hc a l (fun y hy => h y (by simp [hy]))
    simp only [List.cons_append, splitBy, List.append_eq]
    rw [ih]
    simp [hx]

theorem splitChar_append_sep (c : Char) (a l : List Char)
    (h : ∀ x ∈ a, (x == c) = false) :
    splitChar c (a ++ c :: l) = a :: splitChar c l :=
  splitBy_append_sep _ c (by simp) a l h

theorem splitBy_length (p : Char → Bool) :
    ∀ l : List Char, (splitBy p l).length = l.countP p + 1
  | [] => by simp [splitBy]
  | c :: cs => by
    have ih := splitBy_length p cs
    simp only [splitBy]
    cases h : splitBy p cs with
    | nil => exact absurd h (splitBy_ne_nil p cs)
    | cons a t =>
      rw [h] at ih
      cases hp : p c <;> simp_all [List.countP_cons]

theorem argsGet_remove_ne (m : ParsedArgs) (k k' : List Char) (h : k ≠ k') :
    argsGet (argsRemove m k') k = argsGet m k := by
  induction m with
  | nil => rfl
  | cons p rest ih =>
    simp only [argsRemove]
    cases hb : (p.1 == k') with
    | true =>
      have hpk : p.1 = k' := by simpa using hb
      have : (p.1 == k) = false := by simp [hpk, (Ne.symm h)]
      simp [argsGet, this, ih]
    | false =>
      cases hb2 : (p.1 == k) <;> simp [argsGet, hb2, ih]

theorem hasKeyB_false_not_mem (m : ParsedArgs) (k : List Char)
    (h : hasKeyB m k = false) : k ∉ m.map Prod.fst := by
  induction m with
  | nil => simp
  | cons p rest ih =>
    simp only [hasKeyB, argsGet] at h
    cases hb : (p.1 == k) with
    | true => rw [hb] at h; simp at h
    | false =>
      rw [hb] at h
      simp only [List.map_cons, List.mem_cons]
      rintro (h1 | h2)
      · exact absurd (by simp [h1]) (by simp [hb] : ¬ (p.1 == k) = true)
      · exact ih h h2

theorem parseToken_key (arg k v : List Char) (ht : parseToken arg = .ok (k, v)) :
    keyOf arg = k := by
  unfold parseToken at ht
  unfold keyOf
  cases h : splitChar '=' arg with
  | nil => rw [h] at ht; exact absurd ht (by simp)
  | cons a t =>
    cases t with
    | nil =>
      rw [h] at ht
      simp only [Except.ok.injEq, Prod.mk.injEq] at ht
      simp [h, ht.1]
    | cons b t2 =>
      cases t2 with
      | nil =>
        rw [h] at ht
        simp only [Except.ok.injEq, Prod.mk.injEq] at ht
        simp [h, ht.1]
      | cons d t3 => rw [h] at ht; exact absurd ht (by simp)

theorem parseArgsGo_ok_nodup :
    ∀ (toks : List (List Char)) (m m' : ParsedArgs),
      List.Nodup (m.map Prod.fst) →
      parseArgsGo toks m = .ok m' →
      List.Nodup (m.map Prod.fst ++ toks.map keyOf)
  | [], m, m', hm, _ => by simpa using hm
  | arg :: rest, m, m', hm, hgo => by
    simp only [parseArgsGo] at hgo
    cases ht : parseToken arg with
    | error e => rw [ht] at hgo; exact absurd hgo (by simp)
    | ok kv =>
      obtain ⟨k, v⟩ := kv
      rw [ht] at hgo
      simp only at hgo
      cases hk : hasKeyB m k with
      | true => rw [hk] at hgo; exact absurd hgo (by simp)
      | false =>
        rw [hk] at hgo
        simp only [Bool.false_eq_true, if_false] at hgo
        have hnm : k ∉ m.map Prod.fst := hasKeyB_false_not_mem m k hk
        have hdisj : (m.map Prod.fst).Disjoint [k] := by
          intro a ha hk2
          simp only [List.mem_singleton] at hk2
          subst hk2
          exact hnm ha
        have hm2 : List.Nodup ((m ++ [(k, v)]).map Prod.fst) := by
          simp only [List.map_append, List.map_cons, List.map_nil]
          exact List.Nodup.append hm (by simp) hdisj
        have ih := parseArgsGo_ok_nodup rest (m ++ [(k, v)]) m' hm2 hgo
        have hkeq := parseToken_key arg k v ht
        simp only [List.map_append, List.map_cons, List.map_nil, List.append_assoc,
          List.singleton_append] at ih
        simpa [hkeq] using ih

/-- Digit-string to number accumulator used by the integer parsers. -/
def digitsToNat (l : List Char) : Nat :=
  l.foldl (fun a c => a * 10 + (c.toNat - 48)) 0

/-- Rust u32::from_str: an optional leading plus sign, then one or more
ASCII digits, with the value required to fit in 32 bits. -/
def parseU32 (s : List Char) : Option Nat :=
  let t := match s with
    | c :: rest => if c = '+' then rest else s
    | [] => s
  if t = [] then none
  else if t.all Char.isDigit then
    let n := digitsToNat t
    if n < 4294967296 then some n else none
  else none

/-- Rust u16::from_str, as parseU32 but with a 16-bit bound. -/
def parseU16 (s : List Char) : Option Nat :=
  let t := match s with
    | c :: rest => if c = '+' then rest else s
    | [] => s
  if t = [] then none
  else if t.all Char.isDigit then
    let n := digitsToNat t
    if n < 65536 then some n else none
  else none

/-- Rust i32::from_str (RawFd): optional sign, digits, 32-bit range. -/
def parseI32 (s : List Char) : Option Int :=
  let signAndRest : Bool × List Char := match s with
    | c :: rest =>
      if c = '+' then (false, rest)
      else if c = '-' then (true, rest)
      else (false, s)
    | [] => (false, s)
  let neg := signAndRest.1
  let t := signAndRest.2
  if t = [] then none
  else if t.all Char.isDigit then
    let n := digitsToNat t
    if neg then (if n ≤ 2147483648 then some (-(n : Int)) else none)
    else (if n ≤ 2147483647 then some ((n : Int)) else none)
  else none

/-- Value of one hexadecimal digit. -/
def hexDigitVal (c : Char) : Option Nat :=
  if c.isDigit then some (c.toNat - 48)
  else if 'a' ≤ c ∧ c ≤ 'f' then some (c.toNat - 87)
  else if 'A' ≤ c ∧ c ≤ 'F' then some (c.toNat - 55)
  else none

/-- Rust u8::from_str_radix(_, 16): optional plus sign, hex digits, value
below 256. -/
def parseHexU8 (s : List Char) : Option Nat :=
  let t := match s with
    | c :: rest => if c = '+' then rest else s
    | [] => s
  if t = [] then none
  else if t.all (fun c => (hexDigitVal c).isSome) then
    let n := t.foldl (fun a c => a * 16 + (hexDigitVal c).getD 0) 0
    if n < 256 then some n else none
  else none

/-- MacAddress::from_str of the mac_address crate: split on colon or dash
into exactly six groups, each a hexadecimal u8. -/
def parseMac (s : List Char) : Option (List Nat) :=
  let parts := splitBy (fun c => c == ':' || c == '-') s
  if parts.length ≠ 6 then none
  else
    let vals := parts.map parseHexU8
    if vals.all Option.isSome then some (vals.map (fun o => o.getD 0)) else none

/-- virtio.rs DiskImageFormat. -/
inductive DiskImageFormat
  | Raw
  | Qcow2
deriving DecidableEq

/-- The repr(u32) discriminant of DiskImageFormat. -/
def DiskImageFormat.toNat : DiskImageFormat → Nat
  | .Raw => 0
  | .Qcow2 => 1

/-- DiskImageFormat::from_str: case-insensitive raw or qcow2. -/
def DiskImageFormat.fromChars (f : List Char) : Except String DiskImageFormat :=
  let l := f.map Char.toLower
  if l = "raw".data then .ok .Raw
  else if l = "qcow2".data then .ok .Qcow2
  else .error "unsupported disk image format"

def pathKey : List Char := "path".data
def formatKey : List Char := "format".data
def logFilePathKey : List Char := "logFilePath".data
def portKey : List Char := "port".data
def socketURLKey : List Char := "socketURL".data
def listenKey : List Char := "listen".data
def typeKey : List Char := "type".data
def fdKey : List Char := "fd".data
def offloadingKey : List Char := "offloading".data
def vfkitMagicKey : List Char := "vfkitMagic".data
def macKey : List Char := "mac".data
def sharedDirKey : List Char := "sharedDir".data
def mountTagKey : List Char := "mountTag".data
def widthKey : List Char := "width".data
def heightKey : List Char := "height".data

/-- virtio.rs SOCK_TYPE_UNIX_SOCKET_PATH. -/
def SOCK_TYPE_UNIX_SOCKET_PATH : List Char := "unixSocketPath".data

/-- virtio.rs BlkConfig (PathBuf::from_str never fails, so the path is
kept verbatim). -/
structure BlkConfig where
  path : List Char
  format : DiskImageFormat
deriving DecidableEq

/-- The optional format argument of BlkConfig::from_str, defaulting to
Raw when absent. -/
def formatStep (v : Option (List Char)) : Except String DiskImageFormat :=
  match v with
  | none => .ok DiskImageFormat.Raw
  | some f => DiskImageFormat.fromChars f

/-- BlkConfig::from_str (virtio.rs lines 176-192). -/
def BlkConfig.fromChars (s : List Char) : Except String BlkConfig :=
  match parse_args s with
  | .error e => .error e
  | .ok args =>
    match check_required_args args "virtio-blk" [pathKey] with
    | .error e => .error e
    | .ok _ =>
      match argsGet args pathKey with
      | none => .error "panic: virtio-blk path argument missing after required check"
      | some path =>
        let args1 := argsRemove args pathKey
        match formatStep (argsGet args1 formatKey) with
        | .error e => .error e
        | .ok fmt =>
          match check_unknown_args (argsRemove args1 formatKey) "virtio-blk" with
          | .error e => .error e
          | .ok _ => .ok ⟨path, fmt⟩

/-- virtio.rs SerialConfig. -/
structure SerialConfig where
  log_file_path : List Char
deriving DecidableEq

/-- SerialConfig::from_str (virtio.rs lines 233-244). -/
def SerialConfig.fromChars (s : List Char) : Except String SerialConfig :=
  match parse_args s with
  | .error e => .error e
  | .ok args =>
    match check_required_args args "virtio-serial" [logFilePathKey] with
    | .error e => .error e
    | .ok _ =>
      match argsGet args logFilePathKey with
      | none => .error "panic: virtio-serial logFilePath argument missing after required check"
      | some p =>
        match check_unknown_args (argsRemove args logFilePathKey) "virtio-serial" with
        | .error e => .error e
        | .ok _ => .ok ⟨p⟩

/-- virtio.rs VsockAction (Listen is the only variant and the default). -/
inductive VsockAction
  | Listen
deriving DecidableEq

/-- virtio.rs VsockConfig. -/
structure VsockConfig where
  port : Nat
  socket_url : List Char
  action : VsockAction
deriving DecidableEq

/-- VsockConfig::from_str (virtio.rs lines 278-302). -/
def VsockConfig.fromChars (s : List Char) : Except String VsockConfig :=
  match parse_args s with
  | .error e => .error e
  | .ok args =>
    match check_required_args args "virtio-vsock" [portKey, socketURLKey] with
    | .error e => .error e
    | .ok _ =>
      match argsGet args portKey with
      | none => .error "panic: virtio-vsock port argument missing after required check"
      | some pv =>
        match parseU32 pv with
        | none => .error "port argument invalid"
        | some port =>
          let args1 := argsRemove args portKey
          match argsGet args1 socketURLKey with
          | none => .error "panic: virtio-vsock socketURL argument missing after required check"
          | some url =>
            let args2 := argsRemove args1 socketURLKey
            match argsGet args2 listenKey with
            | some v =>
              if v ≠ [] then
                .error ("unexpected value for virtio-vsock argument: listen=" ++ String.mk v)
              else
                match check_unknown_args (argsRemove args2 listenKey) "virtio-vsock" with
                | .error e => .error e
                | .ok _ => .ok ⟨port, url, .Listen⟩
            | none =>
              match check_unknown_args args2 "virtio-vsock" with
              | .error e => .error e
              | .ok _ => .ok ⟨port, url, .Listen⟩

/-- virtio.rs SocketConfig. -/
structure SocketConfig where
  path : Option (List Char)
  fd : Option Int
  offloading : Bool
  send_vfkit_magic : Bool
deriving DecidableEq

/-- The Default derive of SocketConfig. -/
def SocketConfig.default : SocketConfig := ⟨none, none, false, false⟩

/-- virtio.rs SocketType. -/
inductive SocketType
  | UnixGram
  | UnixStream
deriving DecidableEq

/-- virtio.rs NetConfig (the mac address is its six bytes). -/
structure NetConfig where
  socket_type : SocketType
  socket_config : SocketConfig
  mac_address : List Nat
deriving DecidableEq

/-- The socket-type dispatch of parse_socket_config (virtio.rs 436-444). -/
def parseSocketType (t : List Char) : Except String SocketType :=
  if t = "unixgram".data then .ok SocketType.UnixGram
  else if t = "unixstream".data then .ok SocketType.UnixStream
  else .error ("virtio-net unsupported \"type\" input " ++ String.mk t)

/-- The fd argument of parse_socket_config (virtio.rs 452-457). -/
def fdStep (v : Option (List Char)) : Except String (Option Int) :=
  match v with
  | none => .ok none
  | some f =>
    match parseI32 f with
    | some n => .ok (some n)
    | none => .error "virtio-net unable to convert \"fd\" value \x7bfd\x7d to a file descriptor"

/-- The offloading argument of parse_socket_config (virtio.rs 465-467). -/
def offStep (v : Option (List Char)) : Except String Bool :=
  match v with
  | none => .ok false
  | some o => parse_boolean o

/-- The vfkitMagic argument of parse_socket_config (virtio.rs 469-476):
rejected unless the socket type is unixgram. -/
def magicStep (ty : SocketType) (v : Option (List Char)) : Except String Bool :=
  match v with
  | none => .ok false
  | some mg =>
    if ty ≠ SocketType.UnixGram then
      .error "virtio-net only \"type=unixgram\" supports the vfkitMagic argument"
    else parse_boolean mg

/-- virtio.rs parse_socket_config (lines 430-479): type dispatch, then
path, fd, their mutual exclusion, offloading, vfkitMagic, in this order;
the consumed keys are removed from the map. -/
def parse_socket_config (t : List Char) (args : ParsedArgs) :
    Except String (SocketType × SocketConfig × ParsedArgs) :=
  match parseSocketType t with
  | .error e => .error e
  | .ok ty =>
    let path := argsGet args pathKey
    let args1 := argsRemove args pathKey
    match fdStep (argsGet args1 fdKey) with
    | .error e => .error e
    | .ok fd =>
      let args2 := argsRemove args1 fdKey
      if fd.isSome && path.isSome then
        .error "virtio-net device arguments \"path\" and \"fd\" are mutually exclusive and cannot be used together"
      else
        match offStep (argsGet args2 offloadingKey) with
        | .error e => .error e
        | .ok off =>
          let args3 := argsRemove args2 offloadingKey
          match magicStep ty (argsGet args3 vfkitMagicKey) with
          | .error e => .error e
          | .ok magic => .ok (ty, ⟨path, fd, off, magic⟩, argsRemove args3 vfkitMagicKey)

/-- The unixSocketPath branch of NetConfig::from_str (virtio.rs 384-395):
the legacy mode fixes the socket type to UnixGram and the socket config
to the given path with offloading and the vfkit magic enabled. -/
def netStep1 (args : ParsedArgs) : Option SocketType × SocketConfig × ParsedArgs :=
  match argsGet args SOCK_TYPE_UNIX_SOCKET_PATH with
  | some p => (some SocketType.UnixGram, ⟨some p, none, true, true⟩,
      argsRemove args SOCK_TYPE_UNIX_SOCKET_PATH)
  | none => (none, SocketConfig.default, args)

/-- The leftover-argument check and final construction of
NetConfig::from_str, applied to an already parsed mac. -/
def netFinishParsed (ty : SocketType) (sc : SocketConfig) (mp : Option (List Nat))
    (args : ParsedArgs) : Except String NetConfig :=
  match mp with
  | none => .error "virtio-net unable to parse address from \"mac\" argument"
  | some m =>
    match check_unknown_args args "virtio-net" with
    | .error e => .error e
    | .ok _ => .ok ⟨ty, sc, m⟩

/-- The mac extraction of NetConfig::from_str (the key is present because
the required-argument check ran first). -/
def netFinishMac (ty : SocketType) (sc : SocketConfig) (macv : Option (List Char))
    (args : ParsedArgs) : Except String NetConfig :=
  match macv with
  | none => .error "panic: virtio-net mac argument missing after required check"
  | some mac => netFinishParsed ty sc (parseMac mac) args

/-- The tail of NetConfig::from_str (virtio.rs 409-427): missing-mode
check, mac extraction and parse, leftover-argument check. -/
def netFinish (st : Option SocketType) (sc : SocketConfig) (args : ParsedArgs) :
    Except String NetConfig :=
  match st with
  | none => .error "virtio-net device is missing \"type\" or \"unixSocketPath\""
  | some ty => netFinishMac ty sc (argsGet args macKey) (argsRemove args macKey)

/-- NetConfig::from_str (virtio.rs lines 377-427). -/
def NetConfig.fromChars (s : List Char) : Except String NetConfig :=
  match parse_args s with
  | .error e => .error e
  | .ok args =>
    match check_required_args args "virtio-net" [macKey] with
    | .error e => .error e
    | .ok _ =>
      let sp := netStep1 args
      match argsGet sp.2.2 typeKey with
      | some t =>
        if sp.1.isSome then
          .error "virtio-net \"type\" and \"unixSocketPath\" are mutually exclusive and cannot be used together."
        else
          match parse_socket_config t (argsRemove sp.2.2 typeKey) with
          | .error e => .error e
          | .ok (ty, sc, args1) => netFinish (some ty) sc args1
      | none => netFinish sp.1 sp.2.1 sp.2.2

/-- virtio.rs FsConfig. -/
structure FsConfig where
  shared_dir : List Char
  mount_tag : List Char
deriving DecidableEq

/-- FsConfig::from_str (virtio.rs lines 576-592). -/
def FsConfig.fromChars (s : List Char) : Except String FsConfig :=
  match parse_args s with
  | .error e => .error e
  | .ok args =>
    match check_required_args args "virtio-fs" [sharedDirKey, mountTagKey] with
    | .error e => .error e
    | .ok _ =>
      match argsGet args sharedDirKey with
      | none => .error "panic: virtio-fs sharedDir argument missing after required check"
      | some sd =>
        let args1 := argsRemove args sharedDirKey
        match argsGet args1 mountTagKey with
        | none => .error "panic: virtio-fs mountTag argument missing after required check"
        | some mt =>
          match check_unknown_args (argsRemove args1 mountTagKey) "virtio-fs" with
          | .error e => .error e
          | .ok _ => .ok ⟨sd, mt⟩

/-- virtio.rs GpuConfig. -/
structure GpuConfig where
  width : Nat
  height : Nat
deriving DecidableEq

/-- GpuConfig::from_str (virtio.rs lines 626-646): height and width are
required, width is parsed first. -/
def GpuConfig.fromChars (s : List Char) : Except String GpuConfig :=
  match parse_args s with
  | .error e => .error e
  | .ok args =>
    match check_required_args args "virtio-gpu" [heightKey, widthKey] with
    | .error e => .error e
    | .ok _ =>
      match argsGet args widthKey with
      | none => .error "panic: virtio-gpu width argument missing after required check"
      | some wv =>
        match parseU32 wv with
        | none => .error "GPU width argument out of range (0x0 - 0xffffffff)"
        | some w =>
          let args1 := argsRemove args widthKey
          match argsGet args1 heightKey with
          | none => .error "panic: virtio-gpu height argument missing after required check"
          | some hv =>
            match parseU32 hv with
            | none => .error "GPU height argument out of range (0x0 - 0xffffffff)"
            | some hgt =>
              match check_unknown_args (argsRemove args1 heightKey) "virtio-gpu" with
              | .error e => .error e
              | .ok _ => .ok ⟨w, hgt⟩

/-- virtio.rs InputConfig. -/
inductive InputConfig
  | Keyboard
  | Pointing
deriving DecidableEq

/-- InputConfig::from_str (virtio.rs lines 660-678): exactly one bare
flag, keyboard or pointing. -/
def InputConfig.fromChars (s : List Char) : Except String InputConfig :=
  match parse_args s with
  | .error e => .error e
  | .ok args =>
    match args with
    | [(k, v)] =>
      if v ≠ [] then
        .error ("unexpected value for virtio-input argument: "
          ++ String.mk k ++ "=" ++ String.mk v)
      else if k = "keyboard".data then .ok .Keyboard
      else if k = "pointing".data then .ok .Pointing
      else .error ("unknown virtio-input argument: " ++ String.mk k)
    | _ => .error ("invalid virtio-input config: " ++ String.mk s)

/-- virtio.rs VirtioDeviceConfig. -/
inductive VirtioDeviceConfig
  | Blk (c : BlkConfig)
  | Rng
  | Serial (c : SerialConfig)
  | Vsock (c : VsockConfig)
  | Net (c : NetConfig)
  | Fs (c : FsConfig)
  | Gpu (c : GpuConfig)
  | Input (c : InputConfig)
deriving DecidableEq

/-- The fixed table of device-kind labels. -/
def deviceLabels : List (List Char) :=
  ["virtio-blk".data, "virtio-rng".data, "virtio-serial".data, "virtio-vsock".data,
    "virtio-net".data, "virtio-fs".data, "virtio-gpu".data, "virtio-input".data]

/-- VirtioDeviceConfig::from_str (virtio.rs lines 118-143): split on
commas, dispatch on the first segment, hand the re-joined remainder to
the per-device builder.  The virtio-rng arm ignores the remainder.  Note
that splitting always yields at least one segment, so the empty-vector
branch is unreachable. -/
def VirtioDeviceConfig.fromChars (s : List Char) : Except String VirtioDeviceConfig :=
  match splitChar ',' s with
  | [] => .error "no virtio device config found"
  | a0 :: restToks =>
    let rest := joinComma restToks
    if a0 = "virtio-blk".data then
      match BlkConfig.fromChars rest with
      | .error e => .error e
      | .ok c => .ok (.Blk c)
    else if a0 = "virtio-rng".data then .ok .Rng
    else if a0 = "virtio-serial".data then
      match SerialConfig.fromChars rest with
      | .error e => .error e
      | .ok c => .ok (.Serial c)
    else if a0 = "virtio-vsock".data then
      match VsockConfig.fromChars rest with
      | .error e => .error e
      | .ok c => .ok (.Vsock c)
    else if a0 = "virtio-net".data then
      match NetConfig.fromChars rest with
      | .error e => .error e
      | .ok c => .ok (.Net c)
    else if a0 = "virtio-fs".data then
      match FsConfig.fromChars rest with
      | .error e => .error e
      | .ok c => .ok (.Fs c)
    else if a0 = "virtio-gpu".data then
      match GpuConfig.fromChars rest with
      | .error e => .error e
      | .ok c => .ok (.Gpu c)
    else if a0 = "virtio-input".data then
      match InputConfig.fromChars rest with
      | .error e => .error e
      | .ok c => .ok (.Input c)
    else .error ("invalid virtio device label specified: " ++ String.mk a0)

/-- The NUL character, which CString::new rejects inside its input. -/
def nullChar : Char := Char.ofNat 0

/-- Whether a byte string contains an interior NUL. -/
def containsNull (l : List Char) : Bool :=
  l.any (fun c => c == nullChar)

/-- virtio.rs path_to_cstring: fails when the path holds a NUL byte. -/
def path_to_cstring (p : List Char) : Except String (List Char) :=
  if containsNull p then
    .error ("unable to convert path " ++ String.mk p ++ " into NULL-terminated C string")
  else .ok p

/-- Rust Path::file_name: the last normal component of the path, none for
an empty path or one ending in a parent-directory component. -/
def pathFileName (p : List Char) : Option (List Char) :=
  let comps := (splitChar '/' p).filter (fun c => !(c == []) && !(c == ".".data))
  match comps.getLast? with
  | none => none
  | some last => if last = "..".data then none else some last

/-- One call into the libkrun FFI boundary, recorded with its arguments.
This is the narrow backend interface of the application engine. -/
inductive KrunCall
  | addDisk2 (id : Nat) (blockId : List Char) (path : List Char) (format : Nat) (readOnly : Bool)
  | addVsockPort (id : Nat) (port : Nat) (path : List Char)
  | addVirtiofs (id : Nat) (tag : List Char) (path : List Char)
  | setConsoleOutput (id : Nat) (path : List Char)
  | setNetMac (id : Nat) (mac : List Nat)
  | addNetUnixgram (id : Nat) (path : List Char) (fd : Int) (mac : List Nat)
      (features : Nat) (flags : Nat)
  | addNetUnixstream (id : Nat) (path : List Char) (fd : Int) (mac : List Nat)
      (features : Nat) (flags : Nat)
deriving DecidableEq

/-- A backend decides the return value of each FFI call; negative means
failure, as in libkrun. -/
def Backend := KrunCall → Int

/-- A backend on which every call succeeds. -/
def okBackend : Backend := fun _ => 0

def NET_FEATURE_CSUM : Nat := 1 <<< 0
def NET_FEATURE_GUEST_CSUM : Nat := 1 <<< 1
def NET_FEATURE_GUEST_TSO4 : Nat := 1 <<< 7
def NET_FEATURE_GUEST_UFO : Nat := 1 <<< 10
def NET_FEATURE_HOST_TSO4 : Nat := 1 <<< 11
def NET_FEATURE_HOST_UFO : Nat := 1 <<< 14

/-- virtio.rs COMPAT_NET_FEATURES. -/
def COMPAT_NET_FEATURES : Nat :=
  NET_FEATURE_CSUM ||| NET_FEATURE_GUEST_CSUM ||| NET_FEATURE_GUEST_TSO4
    ||| NET_FEATURE_GUEST_UFO ||| NET_FEATURE_HOST_TSO4 ||| NET_FEATURE_HOST_UFO

/-- virtio.rs NET_FLAG_VFKIT. -/
def NET_FLAG_VFKIT : Nat := 1 <<< 0

/-- BlkConfig::krun_ctx_set (virtio.rs lines 197-220): one krun_add_disk2
call whose block id is the path basename (or "disk"), read-write. -/
def BlkConfig.krunCtxSet (c : BlkConfig) (b : Backend) (id : Nat) :
    Except String (List KrunCall) :=
  let basename := (pathFileName c.path).getD "disk".data
  if containsNull basename then .error "can\x27t convert basename to cstring"
  else
    match path_to_cstring c.path with
    | .error e => .error e
    | .ok pc =>
      let call := KrunCall.addDisk2 id basename pc c.format.toNat false
      if b call < 0 then
        .error ("unable to set virtio-blk disk for " ++ String.mk c.path)
      else .ok [call]

/-- SerialConfig::krun_ctx_set (virtio.rs lines 249-259). -/
def SerialConfig.krunCtxSet (c : SerialConfig) (b : Backend) (id : Nat) :
    Except String (List KrunCall) :=
  match path_to_cstring c.log_file_path with
  | .error e => .error e
  | .ok pc =>
    let call := KrunCall.setConsoleOutput id pc
    if b call < 0 then
      .error "unable to set krun console output redirection to virtio-serial log file"
    else .ok [call]

/-- VsockConfig::krun_ctx_set (virtio.rs lines 308-320). -/
def VsockConfig.krunCtxSet (c : VsockConfig) (b : Backend) (id : Nat) :
    Except String (List KrunCall) :=
  match path_to_cstring c.socket_url with
  | .error e => .error e
  | .ok pc =>
    let call := KrunCall.addVsockPort id c.port pc
    if b call < 0 then
      .error ("unable to add vsock port " ++ toString c.port ++ " for path " ++ String.mk pc)
    else .ok [call]

/-- The final krun_set_net_mac call of NetConfig::krun_ctx_set. -/
def netMacStep (c : NetConfig) (b : Backend) (id : Nat) (calls : List KrunCall) :
    Except String (List KrunCall) :=
  let call := KrunCall.setNetMac id c.mac_address
  if b call < 0 then .error "unable to set net MAC address"
  else .ok (calls ++ [call])

/-- NetConfig::krun_ctx_set (virtio.rs lines 483-560): one add-net call
for the socket type, then the mac call. -/
def NetConfig.krunCtxSet (c : NetConfig) (b : Backend) (id : Nat) :
    Except String (List KrunCall) :=
  let features := if c.socket_config.offloading then COMPAT_NET_FEATURES else 0
  match path_to_cstring (c.socket_config.path.getD []) with
  | .error e => .error e
  | .ok pc =>
    match c.socket_type with
    | .UnixGram =>
      let flags := if c.socket_config.send_vfkit_magic then NET_FLAG_VFKIT else 0
      let call := KrunCall.addNetUnixgram id pc (c.socket_config.fd.getD (-1))
        c.mac_address features flags
      if b call < 0 then
        .error "virtio-net unable to add device with unix datagram backend"
      else netMacStep c b id [call]
    | .UnixStream =>
      let call := KrunCall.addNetUnixstream id pc (c.socket_config.fd.getD (-1))
        c.mac_address features 0
      if b call < 0 then
        .error "virtio-net unable to add device with unix stream backend"
      else netMacStep c b id [call]

/-- FsConfig::krun_ctx_set (virtio.rs lines 597-610). -/
def FsConfig.krunCtxSet (c : FsConfig) (b : Backend) (id : Nat) :
    Except String (List KrunCall) :=
  match path_to_cstring c.shared_dir with
  | .error e => .error e
  | .ok sd =>
    match path_to_cstring c.mount_tag with
    | .error e => .error e
    | .ok mt =>
      let call := KrunCall.addVirtiofs id mt sd
      if b call < 0 then
        .error ("unable to add virtiofs shared directory " ++ String.mk sd
          ++ " with mount tag " ++ String.mk mt)
      else .ok [call]

/-- KrunContextSet for VirtioDeviceConfig (virtio.rs lines 148-160):
virtio-rng, virtio-gpu and virtio-input are not configured in krun. -/
def VirtioDeviceConfig.krunCtxSet (d : VirtioDeviceConfig) (b : Backend) (id : Nat) :
    Except String (List KrunCall) :=
  match d with
  | .Blk c => c.krunCtxSet b id
  | .Vsock c => c.krunCtxSet b id
  | .Net c => c.krunCtxSet b id
  | .Fs c => c.krunCtxSet b id
  | .Serial c => c.krunCtxSet b id
  | _ => .ok []

/-- The device loop of KrunContext::try_from (context.rs lines 228-230):
apply each device in declaration order, stopping at the first failure and
collecting the FFI calls made.  There is no per-handle device-role state:
the loop threads only the numeric context id. -/
def applyDevices : List VirtioDeviceConfig → Backend → Nat → Except String (List KrunCall)
  | [], _, _ => .ok []
  | d :: rest, b, id =>
    match d.krunCtxSet b id with
    | .error e => .error e
    | .ok cs =>
      match applyDevices rest b id with
      | .error e => .error e
      | .ok cs2 => .ok (cs ++ cs2)

/-- status.rs RestfulUri. -/
inductive RestfulUri
  | Tcp (addr : Nat × Nat × Nat × Nat) (port : Nat)
  | Unix (path : List Char)
  | None
deriving DecidableEq

/-- Strip a literal prefix from a character list, returning the rest. -/
def stripPrefixSeq : List Char → List Char → Option (List Char)
  | [], rest => some rest
  | _ :: _, [] => none
  | p :: ps, x :: xs => if p = x then stripPrefixSeq ps xs else none

/-- One dotted-quad octet as parsed by Rust Ipv4Addr::from_str: one to
three digits, no redundant leading zero, value at most 255. -/
def parseOctet (s : List Char) : Option Nat :=
  if s = [] then none
  else if ¬ s.all Char.isDigit then none
  else if 1 < s.length ∧ s.headD ' ' = '0' then none
  else
    let n := digitsToNat s
    if n ≤ 255 then some n else none

/-- Rust Ipv4Addr::from_str: exactly four octets separated by dots. -/
def parseIpv4 (s : List Char) : Option (Nat × Nat × Nat × Nat) :=
  match (splitChar '.' s).map parseOctet with
  | [some a, some b, some c, some d] => some (a, b, c, d)
  | _ => none

/-- status.rs parse_tcp_input (lines 85-101): the value must be host
colon port, a literal localhost host is rewritten to 127.0.0.1, the host
must be a dotted IPv4 address and the port an unsigned 16-bit integer. -/
def parse_tcp_input (input : List Char) : Except String ((Nat × Nat × Nat × Nat) × Nat) :=
  match splitChar ':' input with
  | [h0, p0] =>
    let h := if h0 = "localhost".data then "127.0.0.1".data else h0
    match parseIpv4 h with
    | none => .error "restful URI IP address formatted incorrectly"
    | some ip =>
      match parseU16 p0 with
      | none => .error "restful URI port number formatted incorrectly"
      | some port => .ok (ip, port)
  | _ => .error "restful URI formatted incorrectly"

/-- RestfulUri::from_str (status.rs lines 61-82).  The Rust code matches
the anchored regular expression (none|tcp|unix)://(.*) and dispatches on
the scheme; the model reads the value as the remainder of the input after
the scheme separator. -/
def RestfulUri.fromChars (s : List Char) : Except String RestfulUri :=
  match stripPrefixSeq "none://".data s with
  | some _ => .ok RestfulUri.None
  | none =>
    match stripPrefixSeq "tcp://".data s with
    | some v =>
      match parse_tcp_input v with
      | .error e => .error e
      | .ok (ip, port) => .ok (.Tcp ip port)
    | none =>
      match stripPrefixSeq "unix://".data s with
      | some v =>
        if v.isEmpty then .error "empty unix socket path" else .ok (.Unix v)
      | none => .error "invalid scheme input"

/-- status.rs HTTP_RUNNING. -/
def HTTP_RUNNING : String :=
  "HTTP/1.1 200 OK\r\nContent-type: application/json\r\n\r\n\x7b\"state\": \"VirtualMachineStateRunning\"\x7d\x00"

/-- status.rs HTTP_STOPPING. -/
def HTTP_STOPPING : String :=
  "HTTP/1.1 200 OK\r\nContent-type: application/json\r\n\r\n\x7b\"state\": \"VirtualMachineStateStopping\"\x7d\x00"

/-- Whether pat occurs at the start of l. -/
def startsWithSeq : List Char → List Char → Bool
  | [], _ => true
  | _ :: _, [] => false
  | p :: ps, x :: xs => p == x && startsWithSeq ps xs

/-- Rust str::contains with a literal pattern: whether pat occurs
anywhere in l. -/
def containsSeq (pat : List Char) : List Char → Bool
  | [] => pat.isEmpty
  | x :: xs => startsWithSeq pat (x :: xs) || containsSeq pat xs

/-- Rust u64::to_le_bytes: the eight little-endian bytes of n. -/
def u64ToLeBytes (n : Nat) : List Nat :=
  (List.range 8).map (fun i => n / 256 ^ i % 256)

/-- The outcome of one connection exchange: the response bodies written
to the stream and the byte strings written to the shutdown handle. -/
structure StreamOutcome where
  streamWrites : List String
  shutdownWrites : List (List Nat)
deriving DecidableEq

/-- status.rs handle_incoming_stream (lines 112-133): on a successful
read the request text is the lossy decoding of the buffer (an ASCII POST
substring survives lossy decoding exactly when the bytes contain it); a
request containing POST gets the stopping body and one write of the
little-endian 1u64 to the shutdown handle, any other request gets the
running body; a failed read is only logged. -/
def handle_incoming_stream (readResult : Option (List Char)) : StreamOutcome :=
  match readResult with
  | none => ⟨[], []⟩
  | some request =>
    if containsSeq "POST".data request then ⟨[HTTP_STOPPING], [u64ToLeBytes 1]⟩
    else ⟨[HTTP_RUNNING], []⟩

deriving instance DecidableEq for Except

/-- Claim C1 (counterexample): applying three virtio-blk device
configurations to a context succeeds when the backend accepts the calls;
the third block device does not fail, and no RoleExhausted error exists
anywhere in the application engine. -/
theorem claim_c1_counterexample :
    applyDevices
        [VirtioDeviceConfig.Blk ⟨"/tmp/root.raw".data, DiskImageFormat.Raw⟩,
          VirtioDeviceConfig.Blk ⟨"/tmp/data.raw".data, DiskImageFormat.Raw⟩,
          VirtioDeviceConfig.Blk ⟨"/tmp/extra.raw".data, DiskImageFormat.Raw⟩]
        okBackend 0 =
      .ok [KrunCall.addDisk2 0 "root.raw".data "/tmp/root.raw".data 0 false,
        KrunCall.addDisk2 0 "data.raw".data "/tmp/data.raw".data 0 false,
        KrunCall.addDisk2 0 "extra.raw".data "/tmp/extra.raw".data 0 false] := by
  decide

/-- Claim C1 (amended): the application engine keeps no per-handle role
state; each virtio-blk spec, parsed and applied in declaration order,
issues exactly one backend add-disk call whose block id is the path
basename, and a third virtio-blk device is applied exactly like the first
two, succeeding on a backend that accepts the calls. -/
theorem claim_c1_amended_thm :
    VirtioDeviceConfig.fromChars "virtio-blk,path=/tmp/root.raw".data =
        .ok (VirtioDeviceConfig.Blk ⟨"/tmp/root.raw".data, DiskImageFormat.Raw⟩) ∧
      VirtioDeviceConfig.fromChars "virtio-blk,path=/tmp/data.raw".data =
        .ok (VirtioDeviceConfig.Blk ⟨"/tmp/data.raw".data, DiskImageFormat.Raw⟩) ∧
      VirtioDeviceConfig.fromChars "virtio-blk,path=/tmp/extra.raw".data =
        .ok (VirtioDeviceConfig.Blk ⟨"/tmp/extra.raw".data, DiskImageFormat.Raw⟩) ∧
      isErr (applyDevices
        [VirtioDeviceConfig.Blk ⟨"/tmp/root.raw".data, DiskImageFormat.Raw⟩,
          VirtioDeviceConfig.Blk ⟨"/tmp/data.raw".data, DiskImageFormat.Raw⟩,
          VirtioDeviceConfig.Blk ⟨"/tmp/extra.raw".data, DiskImageFormat.Raw⟩]
        okBackend 0) = false := by
  refine ⟨by decide, by decide, by decide, by decide⟩

/-- Claim C3 (counterexample): the empty device spec fails with the
unknown-label error carrying an empty label, not with the message the
claim states; the empty-vector branch of VirtioDeviceConfig::from_str is
unreachable because splitting the empty string yields one empty token. -/
theorem claim_c3_counterexample :
    VirtioDeviceConfig.fromChars "".data = .error "invalid virtio device label specified: " ∧
      VirtioDeviceConfig.fromChars "".data ≠ .error "no virtio device config found" := by
  exact ⟨by decide, by decide⟩

/-- Claim C3 (amended): for every device spec whose first comma-separated
segment is not one of the eight fixed labels — including the empty spec,
whose first segment is the empty label — parsing fails with the
unsupported-device error naming that segment. -/
theorem claim_c3_amended_thm :
    ∀ s : List Char, (splitChar ',' s).headD [] ∉ deviceLabels →
      VirtioDeviceConfig.fromChars s =
        .error ("invalid virtio device label specified: "
          ++ String.mk ((splitChar ',' s).headD [])) := by
  intro s h
  unfold VirtioDeviceConfig.fromChars
  cases hs : splitChar ',' s with
  | nil => exact absurd hs (splitChar_ne_nil ',' s)
  | cons a0 restToks =>
    rw [hs] at h
    simp only [List.headD_cons] at h
    simp only [deviceLabels, List.mem_cons, List.not_mem_nil, or_false, not_or] at h
    obtain ⟨h1, h2, h3, h4, h5, h6, h7, h8⟩ := h
    simp [h1, h2, h3, h4, h5, h6, h7, h8]

/-- Claim C3 witness. -/
theorem claim_c3_witness :
    VirtioDeviceConfig.fromChars "virtio-foo,x=1".data =
      .error "invalid virtio device label specified: virtio-foo" := by
  have h := claim_c3_amended_thm "virtio-foo,x=1".data (by decide)
  rw [h]
  decide

/-- Claim C4 (counterexample): a token holding two equals characters is
rejected by the key-value parser instead of being split at the first
equals sign. -/
theorem claim_c4_counterexample :
    parse_args "a=b=c".data = .error "invalid argument format: a=b=c" := by
  decide

/-- Claim C4 (amended): the key-value parser splits the argument string
on commas; a token without an equals sign yields the pair (token, empty),
a token with exactly one equals sign yields the pair (key, value), and a
token with two or more equals signs fails with the invalid-argument
format error. -/
theorem claim_c4_amended_thm :
    (∀ k : List Char, (∀ x ∈ k, (x == ',') = false) → (∀ x ∈ k, (x == '=') = false) →
        parse_args k = .ok [(k, [])]) ∧
      (∀ k v : List Char, (∀ x ∈ k, (x == ',') = false) → (∀ x ∈ k, (x == '=') = false) →
        (∀ x ∈ v, (x == ',') = false) → (∀ x ∈ v, (x == '=') = false) →
        parse_args (k ++ '=' :: v) = .ok [(k, v)]) ∧
      (∀ t : List Char, (∀ x ∈ t, (x == ',') = false) →
        2 ≤ t.countP (fun x => x == '=') →
        parse_args t = .error ("invalid argument format: " ++ String.mk t)) ∧
      parse_args "a=1,b".data = .ok [("a".data, "1".data), ("b".data, [])] := by
  refine ⟨?_, ?_, ?_, by decide⟩
  · intro k h1 h2
    unfold parse_args
    rw [splitChar_single ',' k h1]
    have hpt : parseToken k = .ok (k, []) := by
      unfold parseToken
      rw [splitChar_single '=' k h2]
    simp [parseArgsGo, hpt, hasKeyB, argsGet]
  · intro k v h1 h2 h3 h4
    have hsep : splitChar ',' (k ++ '=' :: v) = [k ++ '=' :: v] := by
      apply splitChar_single
      intro x hx
      rcases List.mem_append.mp hx with hm | hm
      · exact h1 x hm
      · rcases List.mem_cons.mp hm with rfl | hm2
        · decide
        · exact h3 x hm2
    unfold parse_args
    rw [hsep]
    have hpt : parseToken (k ++ '=' :: v) = .ok (k, v) := by
      unfold parseToken
      rw [splitChar_append_sep '=' k v h2, splitChar_single '=' v h4]
    simp [parseArgsGo, hpt, hasKeyB, argsGet]
  · intro t h1 h2
    unfold parse_args
    rw [splitChar_single ',' t h1]
    have hlen : 3 ≤ (splitChar '=' t).length := by
      have hl := splitBy_length (fun x => x == '=') t
      unfold splitChar
      omega
    obtain ⟨a, b, c, rest, hsh⟩ : ∃ a b c rest, splitChar '=' t = a :: b :: c :: rest := by
      cases hq : splitChar '=' t with
      | nil => rw [hq] at hlen; simp at hlen
      | cons a t1 =>
        cases t1 with
        | nil => rw [hq] at hlen; simp at hlen
        | cons b t2 =>
          cases t2 with
          | nil => rw [hq] at hlen; simp at hlen
          | cons c t3 => exact ⟨a, b, c, t3, rfl⟩
    have hpt : parseToken t = .error ("invalid argument format: " ++ String.mk t) := by
      unfold parseToken
      rw [hsh]
    simp [parseArgsGo, hpt]

/-- Claim C4 witness. -/
theorem claim_c4_witness :
    parse_args "flag".data = .ok [("flag".data, [])] ∧
      parse_args "a=b".data = .ok [("a".data, "b".data)] ∧
      parse_args "x==".data = .error "invalid argument format: x==" :=
  ⟨claim_c4_amended_thm.1 "flag".data (by decide) (by decide),
    claim_c4_amended_thm.2.1 "a".data "b".data (by decide) (by decide) (by decide) (by decide),
    claim_c4_amended_thm.2.2.1 "x==".data (by decide) (by decide)⟩

/-- Claim C5 (counterexample): a virtio-rng spec carrying a sub-argument
is accepted rather than rejected — the dispatcher ignores everything
after the virtio-rng label. -/
theorem claim_c5_counterexample :
    VirtioDeviceConfig.fromChars "virtio-rng,foo".data = .ok VirtioDeviceConfig.Rng := by
  decide

/-- Claim C5 (amended): every spec whose first comma-separated segment is
virtio-rng builds the field-less Rng variant, whatever the remaining
sub-arguments are; they are silently ignored. -/
theorem claim_c5_amended_thm :
    VirtioDeviceConfig.fromChars "virtio-rng".data = .ok VirtioDeviceConfig.Rng ∧
      ∀ rest : List Char,
        VirtioDeviceConfig.fromChars ("virtio-rng".data ++ ',' :: rest) =
          .ok VirtioDeviceConfig.Rng := by
  refine ⟨by decide, ?_⟩
  intro rest
  unfold VirtioDeviceConfig.fromChars
  rw [splitChar_append_sep ',' "virtio-rng".data rest (by decide)]
  rfl

/-- Claim C5 witness. -/
theorem claim_c5_witness :
    VirtioDeviceConfig.fromChars ("virtio-rng".data ++ ',' :: "bar".data) =
      .ok VirtioDeviceConfig.Rng :=
  claim_c5_amended_thm.2 "bar".data

/-- Claim C6: the URI parser maps tcp://localhost:8080 to the address
127.0.0.1 with port 8080, fails on the empty unix socket path, maps any
none:// input to None ignoring the value, fails on an input without a
scheme separator with the invalid-scheme error, and fails with the
formatting error on every tcp value whose colon-separated segment count
differs from two. -/
theorem claim_c6 :
    RestfulUri.fromChars "tcp://localhost:8080".data =
        .ok (RestfulUri.Tcp (127, 0, 0, 1) 8080) ∧
      RestfulUri.fromChars "unix://".data = .error "empty unix socket path" ∧
      (∀ v : List Char, RestfulUri.fromChars ("none://".data ++ v) = .ok RestfulUri.None) ∧
      RestfulUri.fromChars "foobar".data = .error "invalid scheme input" ∧
      ∀ v : List Char, (splitChar ':' v).length ≠ 2 →
        parse_tcp_input v = .error "restful URI formatted incorrectly" := by
  refine ⟨by decide, by decide, fun v => rfl, by decide, ?_⟩
  intro v h
  unfold parse_tcp_input
  cases hs : splitChar ':' v with
  | nil => rfl
  | cons a t1 =>
    cases t1 with
    | nil => rfl
    | cons b t2 =>
      cases t2 with
      | nil => rw [hs] at h; simp at h
      | cons c t3 => rfl

/-- Claim C6 witness. -/
theorem claim_c6_witness :
    parse_tcp_input "localhost".data = .error "restful URI formatted incorrectly" :=
  claim_c6.2.2.2.2 "localhost".data (by decide)

/-- Claim C7: the vsock port must parse as an unsigned 32-bit integer; a
spec with port 4294967295 and a socketURL builds with that port value, an
otherwise identical spec with port 4294967296 fails with the
port-argument error, and any spec whose port value fails the 32-bit parse
is rejected. -/
theorem claim_c7 :
    VsockConfig.fromChars "port=4294967295,socketURL=/tmp/vsock.sock".data =
        .ok ⟨4294967295, "/tmp/vsock.sock".data, VsockAction.Listen⟩ ∧
      VsockConfig.fromChars "port=4294967296,socketURL=/tmp/vsock.sock".data =
        .error "port argument invalid" ∧
      ∀ (s : List Char) (args : ParsedArgs) (pv : List Char),
        parse_args s = .ok args → argsGet args portKey = some pv → parseU32 pv = none →
        isErr (VsockConfig.fromChars s) = true := by
  refine ⟨by decide, by decide, ?_⟩
  intro s args pv hpa hpv hu
  simp only [VsockConfig.fromChars, hpa]
  cases hreq : check_required_args args "virtio-vsock" [portKey, socketURLKey] with
  | error e => simp [isErr]
  | ok u => simp [hpv, hu, isErr]

/-- Claim C7 witness. -/
theorem claim_c7_witness :
    isErr (VsockConfig.fromChars "port=abc,socketURL=/x".data) = true :=
  claim_c7.2.2 "port=abc,socketURL=/x".data
    [(portKey, "abc".data), (socketURLKey, "/x".data)] "abc".data rfl rfl rfl

/-- Claim C9: on a successfully read request, a buffer containing the
POST substring gets the fixed stopping body and exactly one eight-byte
little-endian write of 1 to the shutdown handle; any other buffer gets
the fixed running body and no shutdown write. -/
theorem claim_c9 :
    ∀ request : List Char,
      (containsSeq "POST".data request = true →
        handle_incoming_stream (some request) = ⟨[HTTP_STOPPING], [u64ToLeBytes 1]⟩ ∧
          (handle_incoming_stream (some request)).shutdownWrites = [[1, 0, 0, 0, 0, 0, 0, 0]] ∧
          (u64ToLeBytes 1).length = 8) ∧
        (containsSeq "POST".data request = false →
          handle_incoming_stream (some request) = ⟨[HTTP_RUNNING], []⟩) := by
  intro request
  constructor
  · intro h
    refine ⟨by simp [handle_incoming_stream, h], ?_, by decide⟩
    simp only [handle_incoming_stream, h, if_true]
    decide
  · intro h
    simp [handle_incoming_stream, h]

/-- Claim C9 witness. -/
theorem claim_c9_witness :
    handle_incoming_stream (some "POST /vm/state HTTP/1.1".data) =
        ⟨[HTTP_STOPPING], [u64ToLeBytes 1]⟩ ∧
      handle_incoming_stream (some "GET /vm/state HTTP/1.1".data) = ⟨[HTTP_RUNNING], []⟩ :=
  ⟨((claim_c9 "POST /vm/state HTTP/1.1".data).1 (by decide)).1,
    (claim_c9 "GET /vm/state HTTP/1.1".data).2 (by decide)⟩

/-- Claim C8: an argument string in which the same key occurs in two or
more comma-separated tokens never parses successfully — a duplicate is an
error, not a silent overwrite — and the duplicate error names the
offending token. -/
theorem claim_c8 :
    (∀ s : List Char, ¬ List.Nodup ((splitChar ',' s).map keyOf) →
        isErr (parse_args s) = true) ∧
      parse_args "a=1,a=2".data = .error "argument a=2 is only expected once" := by
  refine ⟨?_, by decide⟩
  intro s h
  cases he : parse_args s with
  | error e => simp [isErr]
  | ok m =>
    have hgo : parseArgsGo (splitChar ',' s) [] = .ok m := he
    have hnd := parseArgsGo_ok_nodup (splitChar ',' s) [] m (by simp) hgo
    simp only [List.map_nil, List.nil_append] at hnd
    exact absurd hnd h

/-- Claim C8 witness. -/
theorem claim_c8_witness : isErr (parse_args "k,k".data) = true :=
  claim_c8.1 "k,k".data (by decide)

theorem parse_socket_config_path_fd (t : List Char) (args : ParsedArgs)
    (hpath : (argsGet args pathKey).isSome = true)
    (hfd : (argsGet args fdKey).isSome = true) :
    isErr (parse_socket_config t args) = true := by
  obtain ⟨pv, hpv⟩ := Option.isSome_iff_exists.mp hpath
  obtain ⟨fv, hfv⟩ := Option.isSome_iff_exists.mp hfd
  have hgf : argsGet (argsRemove args pathKey) fdKey = some fv := by
    rw [argsGet_remove_ne _ _ _ (by decide), hfv]
  simp only [parse_socket_config]
  cases hst : parseSocketType t with
  | error e => simp [isErr]
  | ok ty =>
    cases hpi : parseI32 fv with
    | none => simp [hgf, fdStep, hpi, isErr]
    | some n => simp [hgf, fdStep, hpi, hpv, isErr]

theorem parse_socket_config_unixstream_magic (args : ParsedArgs)
    (hmag : (argsGet args vfkitMagicKey).isSome = true) :
    isErr (parse_socket_config "unixstream".data args) = true := by
  obtain ⟨mg, hmg⟩ := Option.isSome_iff_exists.mp hmag
  have hgm : argsGet (argsRemove (argsRemove (argsRemove args pathKey) fdKey) offloadingKey)
      vfkitMagicKey = some mg := by
    rw [argsGet_remove_ne _ _ _ (by decide), argsGet_remove_ne _ _ _ (by decide),
      argsGet_remove_ne _ _ _ (by decide), hmg]
  have hst : parseSocketType "unixstream".data = .ok SocketType.UnixStream := by decide
  simp only [parse_socket_config, hst]
  cases hfd : fdStep (argsGet (argsRemove args pathKey) fdKey) with
  | error e => simp [isErr]
  | ok fd =>
    cases hcond : (fd.isSome && (argsGet args pathKey).isSome) with
    | true => simp [hcond, isErr]
    | false =>
      cases hoff : offStep (argsGet (argsRemove (argsRemove args pathKey) fdKey)
          offloadingKey) with
      | error e => simp [hcond, hoff, isErr]
      | ok off => simp [hcond, hoff, hgm, magicStep, isErr]

/-- Claim C2: a virtio-net spec supplying both the unixSocketPath key and
the type key fails to build; a spec supplying the type key together with
both path and fd fails; a spec with type unixstream supplying vfkitMagic
fails; and a spec with type unixgram and a valid vfkitMagic boolean
builds with send_vfkit_magic set accordingly. -/
theorem claim_c2 :
    (∀ (s : List Char) (args : ParsedArgs), parse_args s = .ok args →
        (argsGet args SOCK_TYPE_UNIX_SOCKET_PATH).isSome = true →
        (argsGet args typeKey).isSome = true →
        isErr (NetConfig.fromChars s) = true) ∧
      (∀ (s : List Char) (args : ParsedArgs), parse_args s = .ok args →
        (argsGet args typeKey).isSome = true →
        (argsGet args pathKey).isSome = true →
        (argsGet args fdKey).isSome = true →
        isErr (NetConfig.fromChars s) = true) ∧
      (∀ (s : List Char) (args : ParsedArgs), parse_args s = .ok args →
        argsGet args typeKey = some "unixstream".data →
        (argsGet args vfkitMagicKey).isSome = true →
        isErr (NetConfig.fromChars s) = true) ∧
      NetConfig.fromChars "type=unixgram,vfkitMagic=on,mac=00:11:22:33:44:55".data =
        .ok ⟨SocketType.UnixGram, ⟨none, none, false, true⟩, [0, 17, 34, 51, 68, 85]⟩ ∧
      NetConfig.fromChars "type=unixgram,vfkitMagic=off,mac=00:11:22:33:44:55".data =
        .ok ⟨SocketType.UnixGram, ⟨none, none, false, false⟩, [0, 17, 34, 51, 68, 85]⟩ := by
  refine ⟨?_, ?_, ?_, by decide, by decide⟩
  · intro s args hpa husp hty
    simp only [NetConfig.fromChars, hpa]
    cases hreq : check_required_args args "virtio-net" [macKey] with
    | error e => simp [isErr]
    | ok u =>
      obtain ⟨p, hp⟩ := Option.isSome_iff_exists.mp husp
      obtain ⟨t, ht⟩ := Option.isSome_iff_exists.mp hty
      have hgt : argsGet (argsRemove args SOCK_TYPE_UNIX_SOCKET_PATH) typeKey = some t := by
        rw [argsGet_remove_ne _ _ _ (by decide), ht]
      simp [netStep1, hp, hgt, isErr]
  · intro s args hpa hty hpath hfd
    simp only [NetConfig.fromChars, hpa]
    cases hreq : check_required_args args "virtio-net" [macKey] with
    | error e => simp [isErr]
    | ok u =>
      obtain ⟨t, ht⟩ := Option.isSome_iff_exists.mp hty
      cases husp : argsGet args SOCK_TYPE_UNIX_SOCKET_PATH with
      | some p =>
        have hgt : argsGet (argsRemove args SOCK_TYPE_UNIX_SOCKET_PATH) typeKey = some t := by
          rw [argsGet_remove_ne _ _ _ (by decide), ht]
        simp [netStep1, husp, hgt, isErr]
      | none =>
        have hp2 : (argsGet (argsRemove args typeKey) pathKey).isSome = true := by
          rw [argsGet_remove_ne _ _ _ (by decide)]
          exact hpath
        have hf2 : (argsGet (argsRemove args typeKey) fdKey).isSome = true := by
          rw [argsGet_remove_ne _ _ _ (by decide)]
          exact hfd
        have hpsc := parse_socket_config_path_fd t (argsRemove args typeKey) hp2 hf2
        cases hps : parse_socket_config t (argsRemove args typeKey) with
        | error e => simp [netStep1, husp, ht, hps, isErr]
        | ok v => rw [hps] at hpsc; exact absurd hpsc (by simp [isErr])
  · intro s args hpa hty hmag
    simp only [NetConfig.fromChars, hpa]
    cases hreq : check_required_args args "virtio-net" [macKey] with
    | error e => simp [isErr]
    | ok u =>
      cases husp : argsGet args SOCK_TYPE_UNIX_SOCKET_PATH with
      | some p =>
        have hgt : argsGet (argsRemove args SOCK_TYPE_UNIX_SOCKET_PATH) typeKey
            = some "unixstream".data := by
          rw [argsGet_remove_ne _ _ _ (by decide), hty]
        simp [netStep1, husp, hgt, isErr]
      | none =>
        have hm2 : (argsGet (argsRemove args typeKey) vfkitMagicKey).isSome = true := by
          rw [argsGet_remove_ne _ _ _ (by decide)]
          exact hmag
        have hpsc := parse_socket_config_unixstream_magic (argsRemove args typeKey) hm2
        cases hps : parse_socket_config "unixstream".data (argsRemove args typeKey) with
        | error e => simp [netStep1, husp, hty, hps, isErr]
        | ok v => rw [hps] at hpsc; exact absurd hpsc (by simp [isErr])

/-- Claim C2 witness. -/
theorem claim_c2_witness :
    isErr (NetConfig.fromChars
      "unixSocketPath=/tmp/a.sock,type=unixgram,mac=00:00:00:00:00:00".data) = true :=
  claim_c2.1 "unixSocketPath=/tmp/a.sock,type=unixgram,mac=00:00:00:00:00:00".data
    [(SOCK_TYPE_UNIX_SOCKET_PATH, "/tmp/a.sock".data), (typeKey, "unixgram".data),
      (macKey, "00:00:00:00:00:00".data)]
    rfl (by decide) (by decide)

/-- Claim C10: a virtio-net spec that supplies the legacy unixSocketPath
key and no type key, whenever it builds successfully, always yields the
UnixGram socket type and a socket config holding the given path, no file
descriptor, offloading enabled and the vfkit magic enabled. -/
theorem claim_c10 :
    ∀ (s : List Char) (args : ParsedArgs) (p : List Char) (cfg : NetConfig),
      parse_args s = .ok args →
      argsGet args SOCK_TYPE_UNIX_SOCKET_PATH = some p →
      argsGet args typeKey = none →
      NetConfig.fromChars s = .ok cfg →
      cfg.socket_type = SocketType.UnixGram ∧
        cfg.socket_config = ⟨some p, none, true, true⟩ := by
  intro s args p cfg hpa husp hty hok
  have hgt : argsGet (argsRemove args SOCK_TYPE_UNIX_SOCKET_PATH) typeKey = none := by
    rw [argsGet_remove_ne _ _ _ (by decide), hty]
  simp only [NetConfig.fromChars, hpa] at hok
  cases hreq : check_required_args args "virtio-net" [macKey] with
  | error e => rw [hreq] at hok; exact absurd hok (by simp)
  | ok u =>
    rw [hreq] at hok
    simp only [netStep1, husp, hgt, netFinish] at hok
    cases hm : argsGet (argsRemove args SOCK_TYPE_UNIX_SOCKET_PATH) macKey with
    | none =>
      simp only [hm, netFinishMac] at hok
      exact absurd hok (by simp)
    | some mac =>
      simp only [hm, netFinishMac] at hok
      cases hpm : parseMac mac with
      | none =>
        simp only [hpm, netFinishParsed] at hok
        exact absurd hok (by simp)
      | some m =>
        simp only [hpm, netFinishParsed] at hok
        cases hun : check_unknown_args
            (argsRemove (argsRemove args SOCK_TYPE_UNIX_SOCKET_PATH) macKey) "virtio-net" with
        | error e => rw [hun] at hok; exact absurd hok (by simp)
        | ok u2 =>
          rw [hun] at hok
          simp only [Except.ok.injEq] at hok
          rw [← hok]
          exact ⟨rfl, rfl⟩

/-- Claim C10 witness. -/
theorem claim_c10_witness :
    (NetConfig.mk SocketType.UnixGram ⟨some "/tmp/net.sock".data, none, true, true⟩
        [0, 0, 0, 0, 0, 0]).socket_type = SocketType.UnixGram ∧
      (NetConfig.mk SocketType.UnixGram ⟨some "/tmp/net.sock".data, none, true, true⟩
        [0, 0, 0, 0, 0, 0]).socket_config = ⟨some "/tmp/net.sock".data, none, true, true⟩ :=
  claim_c10 "unixSocketPath=/tmp/net.sock,mac=00:00:00:00:00:00".data
    [(SOCK_TYPE_UNIX_SOCKET_PATH, "/tmp/net.sock".data), (macKey, "00:00:00:00:00:00".data)]
    "/tmp/net.sock".data
    (NetConfig.mk SocketType.UnixGram ⟨some "/tmp/net.sock".data, none, true, true⟩
      [0, 0, 0, 0, 0, 0])
    rfl rfl rfl (by decide)

end Krunkit
